import Mathlib

set_option autoImplicit false

/-!
# Verification of the CSpaceEngine orbital-mechanics core

This development gives a shallow embedding of the numerical and
orbital-mechanics kernels declared in `Headers/CSE/Physics/Orbit.h` and
`Headers/CSE/Base/AdvMath.h` of the CSpaceEngine repository, and proves
the testable properties of its specification against that embedding.

The repository ships interface headers: the constants, data structures,
default arguments and Butcher-table orders appearing below are taken
directly from the headers, while function bodies (absent from the
headers) are modelled from the specification text, as flagged in each
doc comment.

Real-valued quantities are embedded as `ℝ` (the C++ code uses IEEE-754
`float64`); orbital periods are embedded as `EReal` because the header
documents the period of a hyperbolic orbit as recorded infinite.
Character and index calculations (the TLE codec) are embedded exactly,
over `Char` and `ℕ`.
-/

namespace CSE

open Real

/-! ## Axis-mapper matrices of the Keplerian satellite tracker

`KeplerianSatelliteTracker::StateVectors` (Orbit.h lines 305-306) takes
the default argument `mat3 {1, 0, 0, 0, 0, -1, 0, 1, 0}` and
`KeplerianSatelliteTracker::StateVectorstoKeplerianElements`
(lines 314-316) takes the default `mat3 {1, 0, 0, 0, 0, 1, 0, -1, 0}`.
The nine literals are transcribed in the order written, one row per
triple; the entries are exact small integers, embedded over `ℤ`.
(The mutual-inverse and mutual-transpose statements are invariant under
re-reading the literal lists in column-major order, since transposing
both matrices preserves both statements.) -/

/-- Default axis mapper of `KeplerianSatelliteTracker::StateVectors`,
transcribed from the default argument `{1, 0, 0, 0, 0, -1, 0, 1, 0}`. -/
def StateVectorsDefaultAxisMapper : Matrix (Fin 3) (Fin 3) ℤ :=
  !![1, 0, 0; 0, 0, -1; 0, 1, 0]

/-- Default axis mapper of
`KeplerianSatelliteTracker::StateVectorstoKeplerianElements`, transcribed
from the default argument `{1, 0, 0, 0, 0, 1, 0, -1, 0}`. -/
def StateVectorsInverseDefaultAxisMapper : Matrix (Fin 3) (Fin 3) ℤ :=
  !![1, 0, 0; 0, 0, 1; 0, -1, 0]

/-! ## TLE codec

The `TLE` class (Orbit.h lines 438-572) stores a 24-character title and
two 69-character data lines (`DataLength = 69`), with the checksum at
position 68 of each line (`L1Checksum = L2Checksum = 68`).
`TLE::VerifyLine` and `TLE::IsValid` are declared in the header without
bodies; they are modelled from the specification. -/

/-- `TLE::DataLength` (Orbit.h line 444): standard length of each data line. -/
def TLEDataLength : ℕ := 69

/-- `TLE::L1Checksum` / `TLE::L2Checksum` (Orbit.h lines 463, 478):
position of the checksum character on each data line. -/
def TLEChecksumPos : ℕ := 68

/-- Decimal digit value of a character: `some (c - '0')` for `'0'`-`'9'`,
`none` otherwise. -/
def charDigitVal (c : Char) : Option ℕ :=
  if '0' ≤ c ∧ c ≤ '9' then some (c.toNat - 48) else none

/-- Modelled from the spec: contribution of one character to the TLE
checksum — digits `'0'`-`'9'` count as themselves, a minus sign counts
as 1, every other character counts as 0
(spec §6.2: "sum digits 0-9 as themselves, count minus signs as 1 each;
all other characters as 0"). -/
def tleCharScore (c : Char) : ℕ :=
  match charDigitVal c with
  | some d => d
  | none => if c = '-' then 1 else 0

/-- Modelled from the spec: the TLE line checksum — the sum of the
character scores of positions 0-67, reduced modulo 10 (spec §6.2:
"checksum is the sum of digits plus minus signs in positions 0-67
mod 10"). -/
def tleLineChecksum (line : List Char) : ℕ :=
  ((line.take TLEChecksumPos).map tleCharScore).sum % 10

/-- Modelled from the spec: `TLE::VerifyLine` — a data line is valid
exactly when it has the standard length and the character at the
checksum position is the digit of the computed checksum (spec §6.2:
the checksum "must equal the character at position 68"). -/
def VerifyLine (line : List Char) : Bool :=
  (line.length == TLEDataLength) &&
    (charDigitVal (line.getD TLEChecksumPos ' ') == some (tleLineChecksum line))

/-- The data carried by a `TLE` object (Orbit.h lines 493-495):
a title and two data lines. -/
structure TLEData where
  title : List Char
  line1 : List Char
  line2 : List Char

/-- Modelled from the spec: `TLE::IsValid` — a TLE is valid when both
data lines pass the checksum verification. -/
def TLEData.IsValid (t : TLEData) : Bool :=
  VerifyLine t.line1 && VerifyLine t.line2

/-! ## Bisection root-finding engine

`BisectionRootFindingEngine` (AdvMath.h lines 2132-2172) declares the
solver and its tolerance fields; the body of `Run` is absent from the
header and is modelled from spec §4.6. -/

/-- Modelled from the spec: one halving step of
`BisectionRootFindingEngine::Run` — the interval is replaced by the half
on which `f(x) − y` still changes sign (the midpoint replaces the
endpoint on the other side). -/
noncomputable def BisectionStep (f : ℝ → ℝ) (y a b : ℝ) : ℝ × ℝ :=
  if (f a - y) * (f ((a + b) / 2) - y) ≤ 0 then (a, (a + b) / 2) else ((a + b) / 2, b)

/-- Modelled from the spec: the bisection driver of
`BisectionRootFindingEngine::Run` — repeatedly halve the bracketing
interval until its width is within the tolerance `tolf a b`, then return
the interval midpoint (spec §4.6). The `fuel` argument bounds the number
of iterations (the engine caps them by `MaxIteration`, 10^2 by default);
an exhausted budget also returns the midpoint. -/
noncomputable def BisectionRun (f : ℝ → ℝ) (y : ℝ) (tolf : ℝ → ℝ → ℝ) :
    ℕ → ℝ → ℝ → ℝ
  | 0, a, b => (a + b) / 2
  | n + 1, a, b =>
    if |b - a| ≤ tolf a b then (a + b) / 2
    else BisectionRun f y tolf n (BisectionStep f y a b).1 (BisectionStep f y a b).2

/-- Modelled from the spec: the termination tolerance of the bisection
engine, `2^(−abs) + 2^(−rel)·|midpoint|`, where `abs` and `rel` are the
configured `AbsoluteTolernece` and `RelativeTolerence` exponents of
`BisectionRootFindingEngine` (AdvMath.h lines 2138-2139). -/
noncomputable def BisectionTolerance (absTolExp relTolExp : ℝ) : ℝ → ℝ → ℝ :=
  fun a b => (2 : ℝ) ^ (-absTolExp) + (2 : ℝ) ^ (-relTolExp) * |(a + b) / 2|

/-! ## Kepler equation solvers

The forward Kepler equations and the enhanced elliptic inverse solvers
(Orbit.h lines 870-1305). The class bodies are absent from the header;
the boundary constants `EBoundary` and `MBoundary` are taken from
Orbit.h lines 995-996. -/

/-- Modelled from the spec: `KE::__Elliptical_Keplerian_Equation`
(Orbit.h line 896) — the elliptic Kepler equation `M = E − e·sin E`
(spec §4.8), angles in radians. -/
noncomputable def EllipticalKeplerianEquation (e E : ℝ) : ℝ := E - Real.sin E * e

/-- Modelled from the spec: `KE::__Parabolic_Keplerian_Equation`
(Orbit.h line 904) — `M = E/2 + E³/6` (spec §4.8). -/
noncomputable def ParabolicKeplerianEquation (E : ℝ) : ℝ := E / 2 + E ^ 3 / 6

/-- Modelled from the spec: `KE::__Hyperbolic_Keplerian_Equation`
(Orbit.h line 913) — `M = e·sinh E − E` (spec §4.8). -/
noncomputable def HyperbolicKeplerianEquation (e E : ℝ) : ℝ := Real.sinh E * e - E

/-- `__Enhanced_Inverse_Keplerian_Equation_Solver::EBoundary`
(Orbit.h line 995): the eccentricity boundary of the near-parabolic
regime. -/
def EBoundary : ℝ := 0.99

/-- `__Enhanced_Inverse_Keplerian_Equation_Solver::MBoundary`
(Orbit.h line 996): the mean-anomaly boundary of the near-parabolic
regime (radians). -/
def MBoundary : ℝ := 0.0045

/-- Iteration budget used by the boundary bisection (the engines cap
iteration counts at 10^2). -/
def KeplerBisectionFuel : ℕ := 100

/-- Modelled from the spec:
`__Enhanced_Inverse_Keplerian_Equation_Solver::BoundaryHandler`
(Orbit.h line 1014) — a bisection search for the eccentric anomaly `E`
over the interval `[0, π]` on the elliptic Kepler equation, used near
the near-parabolic limit (spec §4.8). -/
noncomputable def KeplerBoundaryBisection (e MRad atol rtol : ℝ) : ℝ :=
  BisectionRun (fun E => EllipticalKeplerianEquation e E) MRad
    (fun a b => atol + rtol * |(a + b) / 2|) KeplerBisectionFuel 0 π

/-- Modelled from the spec: the dispatch of
`__Enhanced_Inverse_Keplerian_Equation_Solver::operator()` shared by the
Newton, Markley and piecewise-quintic elliptic solvers (Orbit.h
lines 985-1167): in the near-parabolic regime (`e > EBoundary` and
`M < MBoundary`) the solver does not run its normal algorithm `run` but
returns the bisection result over `[0, π]` (spec §4.8). The `run`
argument stands for the algorithm-specific `Run` member each of the
three subclasses overrides. -/
noncomputable def EnhancedIKESolve (run : ℝ → ℝ → ℝ → ℝ) (e MRad atol rtol : ℝ) : ℝ :=
  if EBoundary < e ∧ MRad < MBoundary then KeplerBoundaryBisection e MRad atol rtol
  else run MRad atol rtol

/-! ## Runge-Kutta ODE engine step control

`RungeKuttaODEEngine` (AdvMath.h lines 1594-1731): the scale-factor
constants (lines 1639-1641) and the RK23/RK45 constructor orders
(lines 1756 and 1802) are taken from the header; the body of `Run` is
absent and the step-control rule is modelled from spec §4.4. -/

/-- `RungeKuttaODEEngine::MinFactor` (AdvMath.h line 1639). -/
def RKMinFactor : ℝ := 0.2

/-- `RungeKuttaODEEngine::MaxFactor` (AdvMath.h line 1640). -/
def RKMaxFactor : ℝ := 10

/-- `RungeKuttaODEEngine::FactorSafe` (AdvMath.h line 1641). -/
def RKFactorSafe : ℝ := 0.9

/-- `RungeKuttaODEEngine::RMSNorm` (AdvMath.h line 1671):
`‖v‖ = sqrt((Σ v_i²)/n)`. -/
noncomputable def RMSNorm (v : List ℝ) : ℝ :=
  Real.sqrt ((v.map (fun x => x ^ 2)).sum / v.length)

/-- Modelled from the spec: the tolerance-scaled error vector
`e / (atol + rtol·max(|y|, |y_new|))` of a candidate step (spec §4.4). -/
noncomputable def ScaledError (err y ynew : List ℝ) (atol rtol : ℝ) : List ℝ :=
  List.zipWith (fun ei p => ei / (atol + rtol * max |p.1| |p.2|)) err (y.zip ynew)

/-- Modelled from the spec: the RMS norm of the scaled error of a
candidate step, the quantity compared against 1 by the step control. -/
noncomputable def StepErrorNorm (err y ynew : List ℝ) (atol rtol : ℝ) : ℝ :=
  RMSNorm (ScaledError err y ynew atol rtol)

/-- Modelled from the spec: the step-size scale factor
`FactorSafe · norm^(−1/(q+1))`, `q` the error-estimator order. -/
noncomputable def StepScaleFactor (q : ℕ) (norm : ℝ) : ℝ :=
  RKFactorSafe * norm ^ (-(1 : ℝ) / ((q : ℝ) + 1))

/-- Modelled from the spec: the step-control decision of
`RungeKuttaODEEngine::Run` — a step with scaled error norm ≤ 1 is
accepted and `h` is scaled by `min(MaxFactor, FactorSafe·norm^(−1/(q+1)))`;
otherwise the step is rejected and `h` is scaled by
`max(MinFactor, FactorSafe·norm^(−1/(q+1)))` (spec §4.4). Returns the
acceptance flag and the new step size. -/
noncomputable def RKStepControl (q : ℕ) (h norm : ℝ) : Bool × ℝ :=
  if norm ≤ 1 then (true, h * min RKMaxFactor (StepScaleFactor q norm))
  else (false, h * max RKMinFactor (StepScaleFactor q norm))

/-- The order parameters passed to the `RungeKuttaODEEngine` base
constructor (AdvMath.h lines 1685-1696). -/
structure RKEngineParams where
  ErrorEstimatorOrder : ℕ
  StepTakenOrder : ℕ
  NStages : ℕ
  DenseOutputOrder : ℕ

/-- `RungeKutta2ndOrderODEEngine` constructor arguments
(AdvMath.h line 1756): error order 2, method order 3, 3 stages,
dense-output order 3 (Bogacki-Shampine). -/
def RK23Engine : RKEngineParams := ⟨2, 3, 3, 3⟩

/-- `RungeKutta4thOrderODEEngine` constructor arguments
(AdvMath.h line 1802): error order 4, method order 5, 6 stages,
dense-output order 4 (Dormand-Prince). -/
def RK45Engine : RKEngineParams := ⟨4, 5, 6, 4⟩

/-! ## Keplerian orbit elements and the satellite tracker

`KeplerianOrbitElems` (Orbit.h lines 49-74) and
`KeplerianSatelliteTracker` (lines 253-317). The struct layout and
default-`NoData` semantics come from the header; the bodies of
`CheckParams`, `KeplerCompute` and the time-advancement methods are
modelled from spec §3 and §4.9. -/

/-- `KeplerianOrbitElems` (Orbit.h lines 49-74) with every field set — the
shape of a tracker state after `CheckParams` validation. `Period` is
`EReal` because the header records the period of an unbound orbit as
infinite; the remaining numeric fields are finite reals, angles in
radians. -/
structure KeplerianOrbitElems where
  RefPlane : String
  Epoch : ℝ
  GravParam : ℝ
  PericenterDist : ℝ
  Period : EReal
  Eccentricity : ℝ
  Inclination : ℝ
  AscendingNode : ℝ
  ArgOfPericenter : ℝ
  MeanAnomaly : ℝ

/-- A `KeplerianOrbitElems` as supplied by a caller, where any field may
hold the `NoData` sentinel of the header (`_NoDataDbl` / `_NoDataStr`),
embedded as `none`. -/
structure KeplerianOrbitElemsInput where
  RefPlane : Option String := none
  Epoch : Option ℝ := none
  GravParam : Option ℝ := none
  PericenterDist : Option ℝ := none
  Period : Option ℝ := none
  Eccentricity : Option ℝ := none
  Inclination : Option ℝ := none
  AscendingNode : Option ℝ := none
  ArgOfPericenter : Option ℝ := none
  MeanAnomaly : Option ℝ := none

/-- The elliptic period law `T = 2π·sqrt(a³/μ)` with `a = q/(1−e)`
(spec §3). -/
noncomputable def ellipticPeriod (q e mu : ℝ) : ℝ :=
  2 * π * Real.sqrt ((q / (1 - e)) ^ 3 / mu)

/-- The gravitational parameter derived from the period by the same law,
`μ = 4π²·a³/T²` (spec §3: μ may be derived from T when missing). -/
noncomputable def ellipticGravParam (q e T : ℝ) : ℝ :=
  4 * π ^ 2 * (q / (1 - e)) ^ 3 / T ^ 2

/-- The completed element set built by `KeplerCompute` from the validated
input, the completed gravitational parameter and period. Unset angles
default to 0 and an unset reference plane to the SpaceEngine default. -/
noncomputable def KeplerCompleted (inp : KeplerianOrbitElemsInput)
    (mu : ℝ) (T : EReal) (q e : ℝ) : KeplerianOrbitElems where
  RefPlane := inp.RefPlane.getD "Ecliptic"
  Epoch := inp.Epoch.getD 0
  GravParam := mu
  PericenterDist := q
  Period := T
  Eccentricity := e
  Inclination := inp.Inclination.getD 0
  AscendingNode := inp.AscendingNode.getD 0
  ArgOfPericenter := inp.ArgOfPericenter.getD 0
  MeanAnomaly := inp.MeanAnomaly.getD 0

/-- Modelled from the spec: `KeplerCompute` (Orbit.h line 1312, body
absent) — completes the pericenter distance, period and gravitational
parameter of an element set and rejects invalid data: eccentricity and
pericenter distance are required, with `e ≥ 0`, `q > 0` and `μ > 0`;
for an elliptic orbit (`e < 1`) the period is recomputed from `μ` by
`T = 2π·sqrt(a³/μ)`, or, when `μ` is missing, `μ` is derived from a
given finite positive period by `μ = 4π²a³/T²`; for a parabolic or
hyperbolic orbit (`e ≥ 1`) the period is recorded as infinite and `μ`
is required (spec §3, §7 NumericDomain). -/
noncomputable def KeplerComputeCore (inp : KeplerianOrbitElemsInput) :
    Option ℝ → Option ℝ → Option ℝ → Option ℝ → Option KeplerianOrbitElems
  | some e, some q, some mu, _ =>
    if 0 ≤ e ∧ 0 < q ∧ 0 < mu then
      if e < 1 then
        some (KeplerCompleted inp mu ((ellipticPeriod q e mu : ℝ) : EReal) q e)
      else
        some (KeplerCompleted inp mu ⊤ q e)
    else none
  | some e, some q, none, some T =>
    if 0 ≤ e ∧ 0 < q ∧ 0 < T ∧ e < 1 then
      some (KeplerCompleted inp (ellipticGravParam q e T) ((T : ℝ) : EReal) q e)
    else none
  | _, _, _, _ => none

/-- The `KeplerCompute` entry point applied to the four orbit-shape
fields of the input. -/
noncomputable def KeplerCompute (inp : KeplerianOrbitElemsInput) :
    Option KeplerianOrbitElems :=
  KeplerComputeCore inp inp.Eccentricity inp.PericenterDist inp.GravParam inp.Period

/-- Modelled from the spec: `KeplerianSatelliteTracker::CheckParams`
(Orbit.h line 269, body absent) — validates the initial elements and
completes the missing ones; the completion is the `KeplerCompute`
routine. -/
noncomputable def CheckParams (inp : KeplerianOrbitElemsInput) :
    Option KeplerianOrbitElems :=
  KeplerCompute inp

/-- A concrete hyperbolic input — `e = 2`, `q = 1`, `μ = 1`, everything
else unset — used to exhibit the completion on an accepted input. -/
noncomputable def HyperbolicSampleInput : KeplerianOrbitElemsInput :=
  { Eccentricity := some 2, PericenterDist := some 1, GravParam := some 1 }

/-- The element set `KeplerCompute` produces from
`HyperbolicSampleInput`: the period is recorded as infinite. -/
noncomputable def HyperbolicSampleOutput : KeplerianOrbitElems :=
  KeplerCompleted HyperbolicSampleInput 1 ⊤ 1 2

/-- The state of a `KeplerianSatelliteTracker` (Orbit.h lines 259-262):
the initial element set, the current element set and the mean angular
velocity. -/
structure KeplerianSatelliteTracker where
  InitialState : KeplerianOrbitElems
  CurrentState : KeplerianOrbitElems
  AngularVelocity : ℝ

/-- Modelled from the spec: the mean angular velocity of the tracker
(spec §4.9) — `n = sqrt(μ/|a|³)` with `a = q/(1−e)` for elliptic and
hyperbolic orbits, `n = sqrt(μ/q³)/2` for parabolic orbits. -/
noncomputable def MeanMotion (El : KeplerianOrbitElems) : ℝ :=
  if El.Eccentricity = 1 then Real.sqrt (El.GravParam / El.PericenterDist ^ 3) / 2
  else Real.sqrt (El.GravParam / |El.PericenterDist / (1 - El.Eccentricity)| ^ 3)

/-- Reduction of an angle to `[0, 2π)` by subtracting the whole number of
turns. -/
noncomputable def mod2pi (x : ℝ) : ℝ := x - 2 * π * ⌊x / (2 * π)⌋

/-- Modelled from the spec: `KeplerianSatelliteTracker::Move`
(Orbit.h line 294, body absent) — adds the mean-anomaly offset to the
current `M`, reduced modulo 2π for an elliptic orbit and without modular
reduction for a parabolic or hyperbolic orbit, leaving every other
element of the current state, the initial state and the angular velocity
unchanged (spec §4.9). -/
noncomputable def KeplerianSatelliteTracker.Move
    (s : KeplerianSatelliteTracker) (offset : ℝ) : KeplerianSatelliteTracker :=
  { s with CurrentState := { s.CurrentState with MeanAnomaly :=
      (if s.CurrentState.Eccentricity < 1 then
        mod2pi (s.CurrentState.MeanAnomaly + offset)
      else s.CurrentState.MeanAnomaly + offset) } }

/-- Modelled from the spec: `KeplerianSatelliteTracker::AddMsecs`
(Orbit.h line 284) — advances by `Ms` milliseconds: offset `n·(Ms/1000)`
seconds of mean motion. -/
noncomputable def KeplerianSatelliteTracker.AddMsecs
    (s : KeplerianSatelliteTracker) (Ms : ℤ) : KeplerianSatelliteTracker :=
  s.Move (s.AngularVelocity * ((Ms : ℝ) / 1000))

/-- Modelled from the spec: `KeplerianSatelliteTracker::AddSeconds`
(Orbit.h line 285) — advances the mean anomaly by `n·Sec`. -/
noncomputable def KeplerianSatelliteTracker.AddSeconds
    (s : KeplerianSatelliteTracker) (Sec : ℤ) : KeplerianSatelliteTracker :=
  s.Move (s.AngularVelocity * (Sec : ℝ))

/-- Modelled from the spec: `KeplerianSatelliteTracker::AddHours`
(Orbit.h line 286) — 3600 seconds per hour. -/
noncomputable def KeplerianSatelliteTracker.AddHours
    (s : KeplerianSatelliteTracker) (Hrs : ℤ) : KeplerianSatelliteTracker :=
  s.Move (s.AngularVelocity * (3600 * (Hrs : ℝ)))

/-- Modelled from the spec: `KeplerianSatelliteTracker::AddDays`
(Orbit.h line 287) — 86400 seconds per day. -/
noncomputable def KeplerianSatelliteTracker.AddDays
    (s : KeplerianSatelliteTracker) (Days : ℤ) : KeplerianSatelliteTracker :=
  s.Move (s.AngularVelocity * (86400 * (Days : ℝ)))

/-- Modelled from the spec: `KeplerianSatelliteTracker::AddYears`
(Orbit.h line 288) — one Julian year of 365.25 days. -/
noncomputable def KeplerianSatelliteTracker.AddYears
    (s : KeplerianSatelliteTracker) (Years : ℤ) : KeplerianSatelliteTracker :=
  s.Move (s.AngularVelocity * (31557600 * (Years : ℝ)))

/-- Modelled from the spec: `KeplerianSatelliteTracker::AddCenturies`
(Orbit.h line 289) — one Julian century of 36525 days. -/
noncomputable def KeplerianSatelliteTracker.AddCenturies
    (s : KeplerianSatelliteTracker) (Centuries : ℤ) : KeplerianSatelliteTracker :=
  s.Move (s.AngularVelocity * (3155760000 * (Centuries : ℝ)))

/-! ## Lambert solver

`__ESA_PyKep_Lambert_Solver` (Orbit.h lines 1429-1631): the `StateBlock`
layout and the constructor default `Rev = 5` (line 1580) come from the
header; the bodies of `Run`, `HouseholderSolve` and `SolutionCount` are
absent and the solution enumeration is modelled from spec §4.10. -/

/-- `__ESA_PyKep_Lambert_Solver::StateBlock` (Orbit.h lines 1438-1444):
one converged solution — iteration count, departure and arrival
velocities and the converged value of the Izzo variable `x`. -/
structure StateBlock where
  Iteration : ℕ
  DepVelocity : Fin 3 → ℝ
  DstVelocity : Fin 3 → ℝ
  XResult : ℝ

/-- The constructor default of the maximum revolution count of
`__ESA_PyKep_Lambert_Solver` (Orbit.h line 1580): `Rev = 5`. -/
def LambertDefaultMaxRevolutions : ℕ := 5

/-- Modelled from the spec: the state buffer filled by
`__ESA_PyKep_Lambert_Solver::HouseholderSolve` — one zero-revolution
solution, then a left-branch and a right-branch solution for each
revolution count `N = 1..Neff`, where `Neff` is the feasible revolution
bound detected by `DetectMaxRevolutions`, never exceeding the configured
maximum (spec §4.10). The arguments `solvePivot`, `solveLeft` and
`solveRight` produce the converged state block of each branch. -/
def LambertStateBuffer (solvePivot : StateBlock)
    (solveLeft solveRight : ℕ → StateBlock) (Neff : ℕ) : List StateBlock :=
  solvePivot ::
    (List.range Neff).flatMap (fun N => [solveLeft (N + 1), solveRight (N + 1)])

/-- Modelled from the spec: `__ESA_PyKep_Lambert_Solver::SolutionCount`
(Orbit.h line 1609, body absent) — the number of state blocks in the
buffer. -/
def LambertSolutionCount (solvePivot : StateBlock)
    (solveLeft solveRight : ℕ → StateBlock) (Neff : ℕ) : ℕ :=
  (LambertStateBuffer solvePivot solveLeft solveRight Neff).length

/-- Modelled from the spec: the exported solutions — for each state block
of the buffer, the departure/arrival velocity pair together with a
Keplerian element set derived from it (the `ExportState` / `Kep(Index)`
getters, Orbit.h lines 1617-1624). -/
def LambertSolutionOutputs (kepOf : StateBlock → KeplerianOrbitElems)
    (buffer : List StateBlock) :
    List (((Fin 3 → ℝ) × (Fin 3 → ℝ)) × KeplerianOrbitElems) :=
  buffer.map (fun blk => ((blk.DepVelocity, blk.DstVelocity), kepOf blk))

end CSE

namespace CSE

open Real

/-! ### Theorems -/

/-- Summing a mapped prefix of a list equals the `Finset.range` sum of
the entries read through `getD`. -/
theorem sum_map_take_eq_sum_range (f : Char → ℕ) (l : List Char) (n : ℕ)
    (h : n ≤ l.length) :
    ((l.take n).map f).sum = ∑ i ∈ Finset.range n, f (l.getD i ' ') := by
  induction n with
  | zero => simp
  | succ m ih =>
    have hm : m ≤ l.length := Nat.le_of_succ_le h
    have hlt : m < l.length := Nat.lt_of_succ_le h
    rw [Finset.sum_range_succ, ← ih hm, List.take_succ]
    rw [List.getElem?_eq_getElem hlt]
    simp only [Option.toList_some, List.map_append, List.sum_append, List.map_cons,
      List.map_nil, List.sum_cons, List.sum_nil, add_zero]
    simp [List.getD, List.get?_eq_getElem?, List.getElem?_eq_getElem hlt]

/-- C10: the default axis-mapper matrix of
`KeplerianSatelliteTracker::StateVectors`, `{1,0,0, 0,0,-1, 0,1,0}`, and
the default axis-mapper matrix of
`KeplerianSatelliteTracker::StateVectorstoKeplerianElements`,
`{1,0,0, 0,0,1, 0,-1,0}`, are mutual inverses and each is the transpose
of the other, so a state vector produced with the default forward mapping
and converted back with the default inverse mapping undergoes no net
change of axis convention. -/
theorem default_axis_mappers_mutual_inverse :
    StateVectorsDefaultAxisMapper * StateVectorsInverseDefaultAxisMapper = 1 ∧
    StateVectorsInverseDefaultAxisMapper * StateVectorsDefaultAxisMapper = 1 ∧
    StateVectorsInverseDefaultAxisMapper = StateVectorsDefaultAxisMapper.transpose ∧
    StateVectorsDefaultAxisMapper = StateVectorsInverseDefaultAxisMapper.transpose := by
  refine ⟨?_, ?_, ?_, ?_⟩ <;>
    · ext i j
      fin_cases i <;> fin_cases j <;> rfl

/-- C8: for a 69-character TLE data line, `TLE::VerifyLine` succeeds
exactly when the character at position 68 is the digit of the sum, over
positions 0-67, of the digit values of `'0'`-`'9'` characters plus 1 for
each minus sign (all other characters contributing 0), reduced modulo 10;
and `TLE::IsValid` requires this verification of both data lines. -/
theorem tle_verifyline_checksum (line : List Char) (h : line.length = TLEDataLength) :
    (VerifyLine line = true ↔
      charDigitVal (line.getD TLEChecksumPos ' ')
        = some ((∑ i ∈ Finset.range 68, tleCharScore (line.getD i ' ')) % 10)) ∧
    (∀ t : TLEData, t.IsValid = true ↔
      (VerifyLine t.line1 = true ∧ VerifyLine t.line2 = true)) := by
  constructor
  · have hsum : tleLineChecksum line
        = (∑ i ∈ Finset.range 68, tleCharScore (line.getD i ' ')) % 10 := by
      unfold tleLineChecksum
      rw [sum_map_take_eq_sum_range tleCharScore line TLEChecksumPos
        (by simp [h, TLEChecksumPos, TLEDataLength])]
      rfl
    unfold VerifyLine
    rw [hsum]
    simp [h]
  · intro t
    simp [TLEData.IsValid]

/-- Witness for the TLE checksum theorem at a concrete 69-character data
line consisting of 68 zeros and the checksum digit 0. -/
theorem tle_verifyline_checksum_witness :
    (VerifyLine (List.replicate 68 '0' ++ ['0']) = true ↔
      charDigitVal ((List.replicate 68 '0' ++ ['0']).getD TLEChecksumPos ' ')
        = some ((∑ i ∈ Finset.range 68,
            tleCharScore ((List.replicate 68 '0' ++ ['0']).getD i ' ')) % 10)) ∧
    (∀ t : TLEData, t.IsValid = true ↔
      (VerifyLine t.line1 = true ∧ VerifyLine t.line2 = true)) :=
  tle_verifyline_checksum (List.replicate 68 '0' ++ ['0'])
    (by simp [TLEDataLength])

/-- C9: the bisection solver `BisectionRootFindingEngine` drives the
interval by repeated halving — when the width is within the tolerance
`2^(−abs) + 2^(−rel)·|midpoint|` it stops and returns the interval
midpoint, and otherwise it performs one halving step, producing a
bracketing interval of exactly half the width, and recurses on it. -/
theorem bisection_halves_until_tolerance (f : ℝ → ℝ)
    (y absTolExp relTolExp : ℝ) (n : ℕ) (a b : ℝ) :
    (|b - a| ≤ BisectionTolerance absTolExp relTolExp a b →
      BisectionRun f y (BisectionTolerance absTolExp relTolExp) (n + 1) a b
        = (a + b) / 2) ∧
    (¬ |b - a| ≤ BisectionTolerance absTolExp relTolExp a b →
      BisectionRun f y (BisectionTolerance absTolExp relTolExp) (n + 1) a b
        = BisectionRun f y (BisectionTolerance absTolExp relTolExp) n
            (BisectionStep f y a b).1 (BisectionStep f y a b).2 ∧
      |(BisectionStep f y a b).2 - (BisectionStep f y a b).1| = |b - a| / 2) := by
  have hstep : ∀ (m : ℕ) (u v : ℝ),
      BisectionRun f y (BisectionTolerance absTolExp relTolExp) (m + 1) u v
        = if |v - u| ≤ BisectionTolerance absTolExp relTolExp u v then (u + v) / 2
          else BisectionRun f y (BisectionTolerance absTolExp relTolExp) m
            (BisectionStep f y u v).1 (BisectionStep f y u v).2 :=
    fun _ _ _ => rfl
  constructor
  · intro h
    rw [hstep, if_pos h]
  · intro h
    refine ⟨by rw [hstep, if_neg h], ?_⟩
    unfold BisectionStep
    by_cases hc : (f a - y) * (f ((a + b) / 2) - y) ≤ 0
    · rw [if_pos hc]
      have hw : (a + b) / 2 - a = (b - a) / 2 := by ring
      simp only [hw, abs_div]
      norm_num
    · rw [if_neg hc]
      have hw : b - (a + b) / 2 = (b - a) / 2 := by ring
      simp only [hw, abs_div]
      norm_num

/-- Witness for the bisection theorem: with `f = id`, `y = 0` and both
tolerance exponents 0 the interval `[0, 1]` is already within tolerance
and the solver returns the midpoint, while the interval `[0, 4]` is not,
and one halving step produces an interval of width 2. -/
theorem bisection_halves_until_tolerance_witness :
    (BisectionRun (fun x => x) 0 (BisectionTolerance 0 0) 1 0 1 = (0 + 1) / 2) ∧
    (BisectionRun (fun x => x) 0 (BisectionTolerance 0 0) 1 0 4
        = BisectionRun (fun x => x) 0 (BisectionTolerance 0 0) 0
            (BisectionStep (fun x => x) 0 0 4).1
            (BisectionStep (fun x => x) 0 0 4).2 ∧
      |(BisectionStep (fun x => x) 0 0 4).2 - (BisectionStep (fun x => x) 0 0 4).1|
        = |4 - 0| / 2) := by
  constructor
  · exact (bisection_halves_until_tolerance (fun x => x) 0 0 0 0 0 1).1
      (by norm_num [BisectionTolerance, Real.rpow_zero])
  · exact (bisection_halves_until_tolerance (fun x => x) 0 0 0 0 0 4).2
      (by norm_num [BisectionTolerance, Real.rpow_zero])

/-- C5: in the near-parabolic regime `e > 0.99` (the header constant
`EBoundary`) and `M < 0.0045` (the header constant `MBoundary`), the
shared dispatch of the three elliptic inverse-Kepler solvers (Newton,
Markley, piecewise quintic) does not run its algorithm-specific `Run`
but returns the result of a bisection search for `E` over `[0, π]` on
the elliptic Kepler equation. -/
theorem enhanced_ike_boundary_bisection (run : ℝ → ℝ → ℝ → ℝ)
    (e MRad atol rtol : ℝ) (he : 0.99 < e) (hm : MRad < 0.0045) :
    EnhancedIKESolve run e MRad atol rtol
      = KeplerBoundaryBisection e MRad atol rtol ∧
    KeplerBoundaryBisection e MRad atol rtol
      = BisectionRun (fun E => EllipticalKeplerianEquation e E) MRad
          (fun a b => atol + rtol * |(a + b) / 2|) KeplerBisectionFuel 0 π := by
  refine ⟨?_, by unfold KeplerBoundaryBisection; rfl⟩
  unfold EnhancedIKESolve
  rw [if_pos (⟨he, hm⟩ : EBoundary < e ∧ MRad < MBoundary)]

/-- Witness for the near-parabolic dispatch at `e = 0.999`,
`M = 0.001`, with a run function that would return `M` unchanged. -/
theorem enhanced_ike_boundary_bisection_witness :
    EnhancedIKESolve (fun M _ _ => M) 0.999 0.001 0 0
      = KeplerBoundaryBisection 0.999 0.001 0 0 ∧
    KeplerBoundaryBisection 0.999 0.001 0 0
      = BisectionRun (fun E => EllipticalKeplerianEquation 0.999 E) 0.001
          (fun a b => 0 + 0 * |(a + b) / 2|) KeplerBisectionFuel 0 π :=
  enhanced_ike_boundary_bisection (fun M _ _ => M) 0.999 0.001 0 0
    (by norm_num) (by norm_num)

/-- C6: a Runge-Kutta step whose scaled error RMS norm is at most 1 is
accepted, with the step size multiplied by
`min(10, 0.9·norm^(−1/(q+1)))`; a step with norm above 1 is rejected,
with the step size multiplied by `max(0.2, 0.9·norm^(−1/(q+1)))`; and
the error-estimator order `q` is 2 for the RK23 engine and 4 for the
RK45 engine. -/
theorem rk_step_acceptance (q : ℕ) (h : ℝ) (err y ynew : List ℝ)
    (atol rtol : ℝ) :
    (StepErrorNorm err y ynew atol rtol ≤ 1 →
      RKStepControl q h (StepErrorNorm err y ynew atol rtol)
        = (true, h * min 10
            (0.9 * (StepErrorNorm err y ynew atol rtol)
              ^ (-(1 : ℝ) / ((q : ℝ) + 1))))) ∧
    (1 < StepErrorNorm err y ynew atol rtol →
      RKStepControl q h (StepErrorNorm err y ynew atol rtol)
        = (false, h * max 0.2
            (0.9 * (StepErrorNorm err y ynew atol rtol)
              ^ (-(1 : ℝ) / ((q : ℝ) + 1))))) ∧
    RK23Engine.ErrorEstimatorOrder = 2 ∧
    RK45Engine.ErrorEstimatorOrder = 4 := by
  refine ⟨fun hn => ?_, fun hn => ?_, rfl, rfl⟩
  · unfold RKStepControl
    rw [if_pos hn]
    rfl
  · unfold RKStepControl
    rw [if_neg (not_le.mpr hn)]
    rfl

/-- Witness for the step-control theorem: with error vector `[2]`,
states `[0]`, `atol = 2`, `rtol = 3` the scaled error norm is 1, so the
step at `q = 2`, `h = 1` is accepted. -/
theorem rk_step_acceptance_witness :
    RKStepControl 2 1 (StepErrorNorm [2] [0] [0] 2 3)
      = (true, 1 * min 10
          (0.9 * (StepErrorNorm [2] [0] [0] 2 3)
            ^ (-(1 : ℝ) / (((2 : ℕ) : ℝ) + 1)))) :=
  (rk_step_acceptance 2 1 [2] [0] [0] 2 3).1
    (by norm_num [StepErrorNorm, ScaledError, RMSNorm])

/-- C3: advancing a `KeplerianSatelliteTracker` in time — by `Move` or by
any of the `Add*` methods, each of which reduces to `Move` with offset
`n·Δt` — changes only the mean anomaly of the current state, which
becomes `M + offset` reduced modulo 2π for an elliptic orbit and
unreduced for a parabolic or hyperbolic one; the reference plane, epoch,
gravitational parameter, pericenter distance, period, eccentricity,
inclination, ascending node and argument of pericenter of the current
state, as well as the initial state and the angular velocity, are all
unchanged. -/
theorem tracker_time_advance_frame (s : KeplerianSatelliteTracker)
    (offset : ℝ) (Ms Sec Hrs Days Years Centuries : ℤ) :
    ((s.Move offset).CurrentState.RefPlane = s.CurrentState.RefPlane) ∧
    ((s.Move offset).CurrentState.Epoch = s.CurrentState.Epoch) ∧
    ((s.Move offset).CurrentState.GravParam = s.CurrentState.GravParam) ∧
    ((s.Move offset).CurrentState.PericenterDist
      = s.CurrentState.PericenterDist) ∧
    ((s.Move offset).CurrentState.Period = s.CurrentState.Period) ∧
    ((s.Move offset).CurrentState.Eccentricity
      = s.CurrentState.Eccentricity) ∧
    ((s.Move offset).CurrentState.Inclination = s.CurrentState.Inclination) ∧
    ((s.Move offset).CurrentState.AscendingNode
      = s.CurrentState.AscendingNode) ∧
    ((s.Move offset).CurrentState.ArgOfPericenter
      = s.CurrentState.ArgOfPericenter) ∧
    ((s.Move offset).CurrentState.MeanAnomaly
      = (if s.CurrentState.Eccentricity < 1 then
          mod2pi (s.CurrentState.MeanAnomaly + offset)
        else s.CurrentState.MeanAnomaly + offset)) ∧
    ((s.Move offset).InitialState = s.InitialState) ∧
    ((s.Move offset).AngularVelocity = s.AngularVelocity) ∧
    (s.AddMsecs Ms = s.Move (s.AngularVelocity * ((Ms : ℝ) / 1000))) ∧
    (s.AddSeconds Sec = s.Move (s.AngularVelocity * (Sec : ℝ))) ∧
    (s.AddHours Hrs = s.Move (s.AngularVelocity * (3600 * (Hrs : ℝ)))) ∧
    (s.AddDays Days = s.Move (s.AngularVelocity * (86400 * (Days : ℝ)))) ∧
    (s.AddYears Years
      = s.Move (s.AngularVelocity * (31557600 * (Years : ℝ)))) ∧
    (s.AddCenturies Centuries
      = s.Move (s.AngularVelocity * (3155760000 * (Centuries : ℝ)))) :=
  ⟨rfl, rfl, rfl, rfl, rfl, rfl, rfl, rfl, rfl, rfl, rfl, rfl, rfl, rfl,
    rfl, rfl, rfl, rfl⟩

/-- The Lambert state buffer holds exactly `2·Neff + 1` state blocks. -/
theorem lambert_state_buffer_length (solvePivot : StateBlock)
    (solveLeft solveRight : ℕ → StateBlock) (Neff : ℕ) :
    (LambertStateBuffer solvePivot solveLeft solveRight Neff).length
      = 2 * Neff + 1 := by
  induction Neff with
  | zero => rfl
  | succ m ih =>
    unfold LambertStateBuffer at ih ⊢
    rw [List.range_succ]
    simp at ih ⊢
    omega

/-- C7: the Lambert solver produces `2·Neff + 1` solutions for an
effective revolution count `Neff`, hence at most `2·N_max + 1` solutions
for a maximum revolution count `N_max`; each solution is exported as a
departure/arrival velocity pair together with a Keplerian element set;
and the constructor defaults the maximum revolution count to 5. -/
theorem lambert_solution_count_bound (solvePivot : StateBlock)
    (solveLeft solveRight : ℕ → StateBlock) (Neff Nmax : ℕ)
    (hfeasible : Neff ≤ Nmax) (kepOf : StateBlock → KeplerianOrbitElems) :
    LambertSolutionCount solvePivot solveLeft solveRight Neff
      = 2 * Neff + 1 ∧
    LambertSolutionCount solvePivot solveLeft solveRight Neff
      ≤ 2 * Nmax + 1 ∧
    (LambertSolutionOutputs kepOf
        (LambertStateBuffer solvePivot solveLeft solveRight Neff)).length
      = LambertSolutionCount solvePivot solveLeft solveRight Neff ∧
    LambertDefaultMaxRevolutions = 5 := by
  have hlen := lambert_state_buffer_length solvePivot solveLeft solveRight Neff
  refine ⟨hlen, ?_, ?_, rfl⟩
  · rw [LambertSolutionCount, hlen]
    omega
  · simp [LambertSolutionOutputs, LambertSolutionCount]

/-- Witness for the Lambert solution-count theorem at a concrete solver
state: trivial state blocks, `Neff = 2`, `Nmax = 5`. -/
theorem lambert_solution_count_bound_witness :
    LambertSolutionCount ⟨0, fun _ => 0, fun _ => 0, 0⟩
        (fun _ => ⟨0, fun _ => 0, fun _ => 0, 0⟩)
        (fun _ => ⟨0, fun _ => 0, fun _ => 0, 0⟩) 2
      = 2 * 2 + 1 ∧
    LambertSolutionCount ⟨0, fun _ => 0, fun _ => 0, 0⟩
        (fun _ => ⟨0, fun _ => 0, fun _ => 0, 0⟩)
        (fun _ => ⟨0, fun _ => 0, fun _ => 0, 0⟩) 2
      ≤ 2 * 5 + 1 ∧
    (LambertSolutionOutputs
        (fun _ => ⟨"Ecliptic", 0, 1, 1, ⊤, 2, 0, 0, 0, 0⟩)
        (LambertStateBuffer ⟨0, fun _ => 0, fun _ => 0, 0⟩
          (fun _ => ⟨0, fun _ => 0, fun _ => 0, 0⟩)
          (fun _ => ⟨0, fun _ => 0, fun _ => 0, 0⟩) 2)).length
      = LambertSolutionCount ⟨0, fun _ => 0, fun _ => 0, 0⟩
          (fun _ => ⟨0, fun _ => 0, fun _ => 0, 0⟩)
          (fun _ => ⟨0, fun _ => 0, fun _ => 0, 0⟩) 2 ∧
    LambertDefaultMaxRevolutions = 5 :=
  lambert_solution_count_bound ⟨0, fun _ => 0, fun _ => 0, 0⟩
    (fun _ => ⟨0, fun _ => 0, fun _ => 0, 0⟩)
    (fun _ => ⟨0, fun _ => 0, fun _ => 0, 0⟩) 2 5 (by norm_num)
    (fun _ => ⟨"Ecliptic", 0, 1, 1, ⊤, 2, 0, 0, 0, 0⟩)

/-- Deriving the gravitational parameter from a positive period by
`μ = 4π²a³/T²` and re-deriving the period by `T = 2π·sqrt(a³/μ)`
recovers the original period. -/
theorem ellipticPeriod_of_gravParam (q e T : ℝ) (hq : 0 < q) (he : e < 1)
    (hT : 0 < T) : ellipticPeriod q e (ellipticGravParam q e T) = T := by
  have he1 : 0 < 1 - e := by linarith
  have ha : 0 < q / (1 - e) := div_pos hq he1
  have ha3 : 0 < (q / (1 - e)) ^ 3 := by positivity
  have hπ : 0 < π := Real.pi_pos
  unfold ellipticPeriod ellipticGravParam
  have hπ' : π ≠ 0 := ne_of_gt hπ
  have hT' : T ≠ 0 := ne_of_gt hT
  have he1' : (1 : ℝ) - e ≠ 0 := ne_of_gt he1
  have hq' : q ≠ 0 := ne_of_gt hq
  have h1 : (q / (1 - e)) ^ 3 / (4 * π ^ 2 * (q / (1 - e)) ^ 3 / T ^ 2)
      = (T / (2 * π)) ^ 2 := by
    field_simp
    ring
  rw [h1, Real.sqrt_sq (by positivity)]
  field_simp

/-- C4: every element set produced by `CheckParams` / `KeplerCompute`
satisfies the data-model invariants — the eccentricity is nonnegative;
the pericenter distance is positive whenever the eccentricity is
positive; for an elliptic orbit (`e < 1`) the period satisfies
`T = 2π·sqrt(a³/μ)` with `a = q/(1−e)`; for a hyperbolic orbit
(`e > 1`) the period is recorded as infinite; the gravitational
parameter is derived from the given period when it is missing from the
input; and `CheckParams` accepts exactly what `KeplerCompute`
produces. -/
theorem keplercompute_invariants (inp : KeplerianOrbitElemsInput)
    (out : KeplerianOrbitElems) (hout : KeplerCompute inp = some out) :
    0 ≤ out.Eccentricity ∧
    (0 < out.Eccentricity → 0 < out.PericenterDist) ∧
    (out.Eccentricity < 1 →
      out.Period = ((ellipticPeriod out.PericenterDist out.Eccentricity
        out.GravParam : ℝ) : EReal)) ∧
    (1 < out.Eccentricity → out.Period = ⊤) ∧
    (inp.GravParam = none → ∀ T, inp.Period = some T →
      out.Eccentricity < 1 →
      out.GravParam
        = ellipticGravParam out.PericenterDist out.Eccentricity T) ∧
    CheckParams inp = KeplerCompute inp := by
  unfold KeplerCompute at hout
  rcases hE : inp.Eccentricity with _ | e
  · rw [hE] at hout
    exact Option.noConfusion hout
  rcases hq : inp.PericenterDist with _ | q
  · rw [hE, hq] at hout
    exact Option.noConfusion hout
  rcases hG : inp.GravParam with _ | mu
  · rcases hT : inp.Period with _ | T
    · rw [hE, hq, hG, hT] at hout
      exact Option.noConfusion hout
    · rw [hE, hq, hG, hT] at hout
      have hout' : (if 0 ≤ e ∧ 0 < q ∧ 0 < T ∧ e < 1 then
          some (KeplerCompleted inp (ellipticGravParam q e T)
            ((T : ℝ) : EReal) q e)
        else none) = some out := hout
      split_ifs at hout' with hcond
      · injection hout' with hback
        subst hback
        obtain ⟨h0e, h0q, h0T, he1⟩ := hcond
        refine ⟨h0e, fun _ => h0q, ?_, ?_, ?_, rfl⟩
        · intro _
          show ((T : ℝ) : EReal) = _
          exact congrArg (fun x : ℝ => (x : EReal))
            (ellipticPeriod_of_gravParam q e T h0q he1 h0T).symm
        · intro hgt
          exact absurd (lt_trans hgt he1) (lt_irrefl 1)
        · intro _ Tin hTin _
          rw [← Option.some.inj hTin]
          rfl
  · rw [hE, hq, hG] at hout
    have hout' : (if 0 ≤ e ∧ 0 < q ∧ 0 < mu then
        (if e < 1 then
          some (KeplerCompleted inp mu ((ellipticPeriod q e mu : ℝ) : EReal) q e)
        else some (KeplerCompleted inp mu ⊤ q e))
      else none) = some out := hout
    split_ifs at hout' with h1 h2
    · injection hout' with hback
      subst hback
      obtain ⟨h0e, h0q, h0mu⟩ := h1
      refine ⟨h0e, fun _ => h0q, fun _ => rfl, ?_, ?_, rfl⟩
      · intro hgt
        exact absurd (lt_trans hgt h2) (lt_irrefl 1)
      · intro hnone
        exact Option.noConfusion hnone
    · injection hout' with hback
      subst hback
      obtain ⟨h0e, h0q, h0mu⟩ := h1
      refine ⟨h0e, fun _ => h0q, ?_, fun _ => rfl, ?_, rfl⟩
      · intro hlt
        exact absurd hlt h2
      · intro hnone
        exact Option.noConfusion hnone

/-- Witness for the invariants theorem at the concrete hyperbolic input
`HyperbolicSampleInput` (`e = 2`, `q = 1`, `μ = 1`): the produced element
set records an infinite period. -/
theorem keplercompute_invariants_witness :
    0 ≤ HyperbolicSampleOutput.Eccentricity ∧
    (0 < HyperbolicSampleOutput.Eccentricity →
      0 < HyperbolicSampleOutput.PericenterDist) ∧
    (HyperbolicSampleOutput.Eccentricity < 1 →
      HyperbolicSampleOutput.Period
        = ((ellipticPeriod HyperbolicSampleOutput.PericenterDist
            HyperbolicSampleOutput.Eccentricity
            HyperbolicSampleOutput.GravParam : ℝ) : EReal)) ∧
    (1 < HyperbolicSampleOutput.Eccentricity →
      HyperbolicSampleOutput.Period = ⊤) ∧
    (HyperbolicSampleInput.GravParam = none →
      ∀ T, HyperbolicSampleInput.Period = some T →
      HyperbolicSampleOutput.Eccentricity < 1 →
      HyperbolicSampleOutput.GravParam
        = ellipticGravParam HyperbolicSampleOutput.PericenterDist
            HyperbolicSampleOutput.Eccentricity T) ∧
    CheckParams HyperbolicSampleInput = KeplerCompute HyperbolicSampleInput :=
  keplercompute_invariants HyperbolicSampleInput HyperbolicSampleOutput
    (by
      have h : KeplerCompute HyperbolicSampleInput
          = (if 0 ≤ (2 : ℝ) ∧ 0 < (1 : ℝ) ∧ 0 < (1 : ℝ) then
              (if (2 : ℝ) < 1 then
                some (KeplerCompleted HyperbolicSampleInput 1
                  ((ellipticPeriod 1 2 1 : ℝ) : EReal) 1 2)
              else some HyperbolicSampleOutput)
            else none) := rfl
      rw [h, if_pos (by norm_num), if_neg (by norm_num)])

end CSE
